import Mathlib

/-!
Verification of the bcbio wrapper script `UCSCbcbioTool.py`.

This file gives a shallow embedding of the script: the CLI options record,
the three `string.Template` texts (transcribed byte-for-byte from the
source), Python's `Template.substitute` semantics, the `defaultdict(str)`
substitution map, the cross-field CLI validation performed in
`parse_arguments`, and the effectful body of `__main__` as a function from
an options record and an environment to a trace of filesystem/subprocess
effects plus a process exit status.
-/

namespace UCSCbcbioTool

/-- The three values accepted by the `--workflow` (`-W`) flag
(`choices=['cancer-variant-calling','germline-variant-calling','structural-variant-calling']`). -/
inductive Workflow where
  | cancer
  | germline
  | structural
deriving DecidableEq

/-- The options record produced by `argparse` in `parse_arguments`
(post-parsing, before the custom cross-field checks).  `action='append'`
flags are `none` when absent and otherwise a non-empty list in the order
given on the command line; plain optional string flags are `Option String`;
`--num_cores` has default 16 supplied by argparse. -/
structure Options where
  sample_files : Option (List String)
  tumor_sample_files : Option (List String)
  normal_sample_files : Option (List String)
  num_cores : Nat
  GATK_file : Option String
  workflow : List Workflow
  bed_file : String
  data_dir : Option String
  data_file : Option String
  output_dir : Option String
deriving DecidableEq

/-- Python truthiness of an optional string value (`if options.data_dir:`):
true iff present and non-empty. -/
def strTruthy (x : Option String) : Bool :=
  !(x.getD "").isEmpty

/-- Python truthiness of an optional list value (`if options.sample_files:`):
true iff present and non-empty. -/
def listTruthy (x : Option (List String)) : Bool :=
  !(x.getD []).isEmpty

/-- One piece of a `string.Template` text: either a literal chunk or a
`$name` placeholder. -/
inductive TItem where
  | lit (s : String)
  | var (name : String)
deriving DecidableEq

/-- A `string.Template`, split at its `$name` placeholders. -/
abbrev Template := List TItem

/-- Model of `Template.substitute` with a total mapping: every placeholder is
replaced by the mapping's value.  This is the behaviour obtained in the
script, whose mapping is a `collections.defaultdict(str)`. -/
def substTotal (t : Template) (f : String → String) : String :=
  match t with
  | [] => ""
  | .lit s :: rest => s ++ substTotal rest f
  | .var n :: rest => f n ++ substTotal rest f

/-- Model of `Template.substitute` with a possibly incomplete mapping: a placeholder
whose name is not mapped raises `KeyError(name)` (modelled as
`Except.error name`, reporting the first missing key). -/
def substituteP (t : Template) (f : String → Option String) : Except String String :=
  match t with
  | [] => .ok ""
  | .lit s :: rest => (substituteP rest f).map (fun r => s ++ r)
  | .var n :: rest =>
      match f n with
      | none => .error n
      | some v => (substituteP rest f).map (fun r => v ++ r)

/-- Model of `collections.defaultdict(str)` lookup over an association list:
a missing key yields the empty string. -/
def dget (m : List (String × String)) (k : String) : String :=
  (m.lookup k).getD ""

/-- Local copy of `Except.isOk` (kept here to keep the development self-contained). -/
def isOkE {ε α : Type} : Except ε α → Bool
  | .ok _ => true
  | .error _ => false

/-! ## The template texts

Literal chunks transcribed byte-for-byte from the triple-quoted strings in
`get_germline_variant_template`, `get_cancer_variant_template` and
`get_bcbio_system_template` (trailing spaces included; `\x27` is the
ASCII apostrophe). -/

def g0 : String := "\n# See the bcbio-nextgen documentation for a description of the pipeline this was\n# derived from \n# https://bcbio-nextgen.readthedocs.org/en/latest/contents/testing.html#example-pipelines\n---\nresources:\n  tmp:\n    dir: "

def g1 : String := "\n    #dir: ./work\nupload:\n  dir: "

def g2 : String := "\ndetails:\n#   - files: [../input/NA12878_1.fastq.gz, ../input/NA12878_2.fastq.gz]\n  - files: [ "

def g3 : String := " ]\n    description: NA12878\n    metadata:\n      batch: ceph\n      sex: female\n    analysis: variant2\n    genome_build: GRCh37\n    algorithm:\n      aligner: bwa\n      align_split_size: 5000000\n      mark_duplicates: true\n      recalibrate: false\n      realign: false\n      variantcaller: [freebayes, gatk-haplotype, platypus, samtools]\n      remove_lcr: true\n#      validate: ../input/GiaB_v2_19.vcf.gz\n#      validate_regions: ../input/GiaB_v2_19_regions.bed\n    "

/-- Germline template, start up to (excluding) the `$output_dir` placeholder. -/
def germA : Template := [.lit g0, .var "working_dir", .lit g1]

/-- Germline template, between `$output_dir` and `$sample_files`. -/
def germB : Template := [.lit g2]

/-- Germline template, after `$sample_files`. -/
def germC : Template := [.lit g3]

/-- The template returned by `get_germline_variant_template`.
Its placeholders are `$working_dir`, `$output_dir` and `$sample_files`;
there is no `$svcaller_info` and no `$bed_file` placeholder in it. -/
def germlineTemplate : Template :=
  germA ++ [TItem.var "output_dir"] ++ germB ++ [TItem.var "sample_files"] ++ germC

def c0 : String := "\n# Cancer tumor/normal calling evaluation using synthetic dataset 3\n# from the ICGC-TCGA DREAM challenge:\n# https://www.synapse.org/#!Synapse:syn312572/wiki/62018\n---\ndetails:\n- algorithm:\n    aligner: bwa\n    align_split_size: 5000000\n    nomap_split_targets: 100\n    mark_duplicates: true\n    recalibrate: true\n    realign: true\n    remove_lcr: true\n    platform: illumina\n    quality_format: standard\n    variantcaller: [mutect2, freebayes, vardict, varscan]\n    indelcaller: false\n    ensemble:\n      numpass: 2\n    variant_regions: "

def c1 : String := "\n#    variant_regions: /mnt/cancer-dream-syn3/input/NGv3.bed\n    # svcaller: [cnvkit, lumpy, delly]\n    "

def c2 : String := "\n    # coverage_interval: amplicon\n  analysis: variant2\n  description: syn3-normal\n\n  # The YAML below should look like the following after substitution:\n  # files: [ <path and file name of normal paired end reads>, <path and file name of other end of normal paired end reads> ]\n  files: ["

def c3 : String := "]\n\n  #files: /mnt/cancer-dream-syn3/input/synthetic.challenge.set3.normal.bam\n#  files:\n#    - /mnt/cancer-dream-syn3/input/synthetic_challenge_set3_normal_NGv3_1.fq.gz\n#    - /mnt/cancer-dream-syn3/input/synthetic_challenge_set3_normal_NGv3_2.fq.gz\n  genome_build: GRCh37\n  metadata:\n    batch: syn3\n    phenotype: normal\n- algorithm:\n    aligner: bwa\n    align_split_size: 5000000\n    nomap_split_targets: 100\n    mark_duplicates: true\n    recalibrate: true\n    realign: true\n    remove_lcr: true\n    platform: illumina\n    quality_format: standard\n    variantcaller: [mutect2, freebayes, vardict, varscan]\n    indelcaller: false\n    ensemble:\n      numpass: 2\n    variant_regions: "

def c4 : String := "\n#    variant_regions: /mnt/cancer-dream-syn3/input/NGv3.bed\n#    validate: /mnt/cancer-dream-syn3/input/synthetic_challenge_set3_tumor_20pctmasked_truth.vcf.gz\n#    validate_regions: /mnt/cancer-dream-syn3/input/synthetic_challenge_set3_tumor_20pctmasked_truth_regions.bed\n    # svcaller: [cnvkit, lumpy, delly]\n    "

def c5 : String := "\n    # coverage_interval: amplicon\n  #   svvalidate:\n  #     DEL: /mnt/cancer-dream-syn3/input/synthetic_challenge_set3_tumor_20pctmasked_truth_sv_DEL.bed\n  #     DUP: /mnt/cancer-dream-syn3/input/synthetic_challenge_set3_tumor_20pctmasked_truth_sv_DUP.bed\n  #     INS: /mnt/cancer-dream-syn3/input/synthetic_challenge_set3_tumor_20pctmasked_truth_sv_INS.bed\n  #     INV: /mnt/cancer-dream-syn3/input/synthetic_challenge_set3_tumor_20pctmasked_truth_sv_INV.bed\n  analysis: variant2\n  description: syn3-tumor\n\n\n  # The YAML below should look like the following after substitution:\n  # files: [ <path and file name of tumor paired end reads>, <path and file name of other end of tumor paired end reads> ]\n  files: ["

def c6 : String := "]\n\n  #files: /mnt/cancer-dream-syn3/input/synthetic.challenge.set3.tumor.bam\n#  files:\n#    - /mnt/cancer-dream-syn3/input/synthetic_challenge_set3_tumor_NGv3_1.fq.gz\n#    - /mnt/cancer-dream-syn3/input/synthetic_challenge_set3_tumor_NGv3_2.fq.gz\n  genome_build: GRCh37\n  metadata:\n    batch: syn3\n    phenotype: tumor\nfc_date: \x272014-08-13\x27\nfc_name: dream-syn3\nupload:\n#  dir: /mnt/cancer-dream-syn3/final\n  dir: "

def c7 : String := "\nresources:\n  tmp:\n    #dir: ./work \n    dir: "

def c8 : String := "\n    "

/-- Cancer template, start up to (excluding) the first `$svcaller_info`. -/
def cancerA : Template := [.lit c0, .var "bed_file", .lit c1]

/-- Cancer template, between the two `$svcaller_info` placeholders. -/
def cancerB : Template := [.lit c2, .var "normal_sample_files", .lit c3, .var "bed_file", .lit c4]

/-- Cancer template, tail up to (excluding) the `$output_dir` placeholder. -/
def cancerC1 : Template := [.lit c5, .var "tumor_sample_files", .lit c6]

/-- Cancer template, after `$output_dir`. -/
def cancerC2 : Template := [.lit c7, .var "working_dir", .lit c8]

/-- Cancer template, after the second `$svcaller_info`. -/
def cancerC : Template := cancerC1 ++ [TItem.var "output_dir"] ++ cancerC2

/-- The template returned by `get_cancer_variant_template`.  Placeholders in
order: `$bed_file`, `$svcaller_info`, `$normal_sample_files`, `$bed_file`,
`$svcaller_info`, `$tumor_sample_files`, `$output_dir`, `$working_dir`. -/
def cancerTemplate : Template :=
  cancerA ++ [TItem.var "svcaller_info"] ++ cancerB ++ [TItem.var "svcaller_info"] ++ cancerC

def s0 : String := "\n#\nresources:\n#  tmp:\n#    dir: "

def s1 : String := "\n  default:\n    cores: "

def s2 : String := "\n    jvm_opts:\n    - -Xms750m\n    - -Xmx3500m\n    memory: 3G\n  dexseq:\n    memory: 10g\n  express:\n    memory: 8g\n  gatk:\n    jvm_opts:\n    - -Xms500m\n    - -Xmx3500m\n  macs2:\n    memory: 8g\n  qualimap:\n    memory: 4g\n  seqcluster:\n    memory: 8g\n  snpeff:\n    jvm_opts:\n    - -Xms750m\n    - -Xmx4g\ngalaxy_config: /mnt/biodata/galaxy/\n#  galaxy_config: "

def s3 : String := "\n    "

/-- The template returned by `get_bcbio_system_template`. -/
def bcbioSystemTemplate : Template :=
  [.lit s0, .var "temp_dir", .lit s1, .var "core_count", .lit s2, .var "galaxy_config_path", .lit s3]

/-! ## Argument validation (`parse_arguments`) -/

/-- The cross-field validation performed on the parsed options.  The first
check models argparse's mutually-exclusive group for `--data_dir` (`-d`)
and `--data_file` (`-f`), raised while parsing before the custom checks; the
remaining five are the `parser.error` calls of `parse_arguments`, in source
order.  `parser.error` exits the process with status 2. -/
def parse_arguments (o : Options) : Except String Options :=
  if o.data_dir.isSome ∧ o.data_file.isSome then
    .error "argument -f/--data_file: not allowed with argument -d/--data_dir"
  else if Workflow.germline ∉ o.workflow ∧ Workflow.cancer ∉ o.workflow ∧
      Workflow.structural ∈ o.workflow then
    .error "Structural variant calling must be run with germline or cancer variant calling"
  else if Workflow.germline ∈ o.workflow ∧ Workflow.cancer ∈ o.workflow then
    .error "Cancer variant calling cannot be run with germline variant calling"
  else if Workflow.germline ∈ o.workflow ∧ o.sample_files = none then
    .error "Sample files switch must be used for germline-variant-calling"
  else if Workflow.cancer ∈ o.workflow ∧
      (o.normal_sample_files = none ∨ o.tumor_sample_files = none) then
    .error "Normal and tumor input file switches must be used for cancer-variant-calling"
  else if (o.normal_sample_files ≠ none ∨ o.tumor_sample_files ≠ none) ∧
      o.sample_files ≠ none then
    .error "Normal and tumor input file switches cannot be used with sample input switch"
  else
    .ok o

/-! ## The effectful body of `__main__`

`__main__` is modelled as a function from the options record and an
environment (`World`) to the sequence of filesystem and subprocess effects
it performs plus the process exit status.  `print` calls (stdout/stderr
messages) are not recorded as effects. -/

/-- A filesystem or subprocess side effect of the script, in the order
performed. -/
inductive Effect where
  | makedirs (path : String)
  | tarExtract (file : String) (dest : String)
  | gatkRegister (file : String)
  | symlink (src : String) (dest : String)
  | dataDownload
  | writeFile (name : String) (content : String)
  | callPipeline (configName : String) (cores : Nat)
deriving DecidableEq

/-- The environment a run executes in: current working directory, the set
of pre-existing paths (stored without a trailing slash), which pre-existing
directories have a non-empty listing, whether the `tar` subprocess
succeeds, whether `/tmp/gatk/` exists and is non-empty, the detected CPU
count (`none` models `multiprocessing.cpu_count()` raising), and the exit
status the `bcbio_nextgen.py` run subprocess will return. -/
structure World where
  cwd : String
  fs0 : List String
  nonEmpty0 : String → Bool
  tarOk : Bool
  gatkDirNonEmpty : Bool
  cpuCount : Option Nat
  pipelineExit : Int

/-- Mutable state threaded through the run: existing paths, directory
non-emptiness, and the effects performed so far. -/
structure St where
  fs : List String
  nonEmpty : String → Bool
  effects : List Effect

/-- Drop a trailing `/` so that `os.path.exists` on `d` and on `d + \x27/\x27`
agree, as they do on a real filesystem. -/
def norm (p : String) : String :=
  if p.back == '/' then p.dropRight 1 else p

/-- Model of `os.path.join(d, \x27\x27)`: append a `/` unless one is already there. -/
def joinSlash (d : String) : String :=
  if d.back == '/' then d else d ++ "/"

/-- Append effects to the trace. -/
def addFx (s : St) (es : List Effect) : St :=
  { s with effects := s.effects ++ es }

/-- Model of `if not os.path.exists(p): os.makedirs(p)`. -/
def mkdirIfAbsent (p : String) (s : St) : St :=
  if norm p ∈ s.fs then s
  else { s with fs := norm p :: s.fs, effects := s.effects ++ [.makedirs p] }

/-- A bare `os.makedirs(p)` (used on paths just shown not to exist). -/
def mkdirsF (p : String) (s : St) : St :=
  { s with fs := norm p :: s.fs, effects := s.effects ++ [.makedirs p] }

/-- The `datadir` value computed by the provisioning section: the
user-supplied directory with a trailing slash added, or `cwd + \x27/data/\x27`
in the archive and download cases. -/
def datadirOf (o : Options) (w : World) : String :=
  if strTruthy o.data_dir then joinSlash (o.data_dir.getD "")
  else w.cwd ++ "/data/"

/-- The reference-data provisioning section (the
`if options.data_dir: ... elif options.data_file: ... else: ...` block).
In the archive case the `tar` subprocess is run under
`try/except subprocess.CalledProcessError`; on failure the handler only
prints `err.output` to stderr and execution continues, so the state is
returned unchanged apart from the recorded `tarExtract` attempt. -/
def provisionSt (o : Options) (w : World) : St :=
  let sInit : St := ⟨w.fs0, w.nonEmpty0, []⟩
  if strTruthy o.data_dir then
    mkdirIfAbsent (o.data_dir.getD "") sInit
  else if strTruthy o.data_file then
    let d := w.cwd ++ "/data/"
    let s := mkdirIfAbsent d sInit
    let s := addFx s [.tarExtract (o.data_file.getD "") d]
    if w.tarOk then { s with nonEmpty := fun p => p == norm d || s.nonEmpty p }
    else s
  else
    mkdirIfAbsent (w.cwd ++ "/data/") sInit

/-- State after also creating the intermediate-files directory
`working_dir = cwd + \x27/work/\x27`. -/
def workSt (o : Options) (w : World) : St :=
  mkdirIfAbsent (w.cwd ++ "/work/") (provisionSt o w)

/-- The value `output_dir_str`: the user-supplied output directory if truthy,
otherwise the literal `./final`. -/
def outputDirStr (o : Options) : String :=
  if strTruthy o.output_dir then o.output_dir.getD "" else "./final"

/-- State after also creating the output directory if absent. -/
def outSt (o : Options) (w : World) : St :=
  mkdirIfAbsent (outputDirStr o) (workSt o w)

/-- The text `svcaller: [cnvkit, lumpy, delly]` — the structural-variant tool-list
fragment substituted for `$svcaller_info` when structural variant calling
is requested. -/
def svFrag : String := "svcaller: [cnvkit, lumpy, delly]"

/-- The contents of the `yaml_substitute_values` mapping, a
`collections.defaultdict(str)`: `working_dir`, `bed_file` and `output_dir`
are always inserted, the three file groups only when truthy (joined with
`\x27,\x27.join`), `svcaller_info` is initialised to the empty string and set
to the tool-list fragment when structural variant calling is requested,
and every other key defaults to the empty string. -/
def ctxOf (o : Options) (cwd : String) : String → String := fun k =>
  if k = "working_dir" then cwd ++ "/work/"
  else if k = "bed_file" then o.bed_file
  else if k = "output_dir" then outputDirStr o
  else if k = "sample_files" then
    (if listTruthy o.sample_files then String.intercalate "," (o.sample_files.getD []) else "")
  else if k = "normal_sample_files" then
    (if listTruthy o.normal_sample_files then String.intercalate "," (o.normal_sample_files.getD []) else "")
  else if k = "tumor_sample_files" then
    (if listTruthy o.tumor_sample_files then String.intercalate "," (o.tumor_sample_files.getD []) else "")
  else if k = "svcaller_info" then
    (if Workflow.structural ∈ o.workflow then svFrag else "")
  else ""

/-- Workflow template selection: `workflow_template` is assigned the
germline template when `germline-variant-calling` is requested and then
reassigned the cancer template when `cancer-variant-calling` is requested,
so a cancer request wins; if neither is requested the variable is never
bound (`none`, a `NameError` at the later `.substitute` call). -/
def templateOf (o : Options) : Option Template :=
  if Workflow.cancer ∈ o.workflow then some cancerTemplate
  else if Workflow.germline ∈ o.workflow then some germlineTemplate
  else none

/-- The GATK installation section: skipped unless `--GATK_file` is truthy;
skipped with a warning when `/tmp/gatk/` exists and is non-empty;
otherwise `gatk-register` is invoked (its failure is likewise only
printed, changing nothing else). -/
def gatkSt (o : Options) (w : World) (s : St) : St :=
  if strTruthy o.GATK_file then
    if w.gatkDirNonEmpty then s
    else addFx s [.gatkRegister (o.GATK_file.getD "")]
  else s

/-- The substitution context of the bcbio system YAML: `core_count` is the
detected CPU count, falling back to 16 when detection raises; the other
placeholders are absent and default to the empty string through the
`defaultdict`. -/
def sysCtx (w : World) : String → String := fun k =>
  if k = "core_count" then toString (w.cpuCount.getD 16) else ""

/-- The genome-data section: if `datadir` exists and is empty, create the
`galaxy` and `genomes` subdirectories with their symlinks, write the bcbio
system YAML and download the reference data; if it exists and is
non-empty, only create the symlinks (and warn); if it cannot be reached,
only an error is printed and execution continues. -/
def genomeSt (o : Options) (w : World) (s : St) : St :=
  let datadir := datadirOf o w
  if norm datadir ∈ s.fs then
    if s.nonEmpty (norm datadir) then
      addFx s [.symlink (datadir ++ "genomes") "/mnt/biodata/genomes",
               .symlink (datadir ++ "galaxy") "/mnt/biodata/galaxy"]
    else
      let s := mkdirsF (datadir ++ "galaxy") s
      let s := addFx s [.symlink (datadir ++ "galaxy") "/mnt/biodata/galaxy"]
      let s := mkdirsF (datadir ++ "genomes") s
      let s := addFx s [.symlink (datadir ++ "genomes") "/mnt/biodata/genomes"]
      let bcbio_system_yaml := substTotal bcbioSystemTemplate (sysCtx w)
      addFx s [.writeFile "/mnt/biodata/galaxy/bcbio_system.yaml" bcbio_system_yaml,
               .dataDownload]
  else s

/-- Result of a run: the effect trace and the process exit status. -/
structure RunResult where
  effects : List Effect
  exit : Nat
deriving DecidableEq

/-- Whether a run's effect trace includes writing the project
configuration file `bcbio_project.yaml` (with whatever content). -/
def writesConfig (r : RunResult) : Bool :=
  r.effects.any fun e =>
    match e with
    | .writeFile n _ => n == "bcbio_project.yaml"
    | _ => false

/-- Model of `sys.exit(x)` where `x` is the value returned by `__main__`:
`__main__` has no `return` statement, so it returns `None`, and
`sys.exit(None)` exits with status 0. -/
def sysExitCode : Option Int → Nat
  | none => 0
  | some n => n.toNat

/-- The body of `__main__` after successful argument validation. -/
def runValidated (o : Options) (w : World) : RunResult :=
  let ctx := ctxOf o w.cwd
  let s := outSt o w
  match templateOf o with
  | none =>
      -- neither germline nor cancer requested: `workflow_template` is
      -- unbound and the `.substitute` call raises an uncaught `NameError`
      { effects := s.effects, exit := 1 }
  | some t =>
      -- `workflow_to_run = ""` then `try: ... substitute ... except
      -- KeyError: print` — on a substitution error the empty string is kept
      let workflow_to_run :=
        match substituteP t (fun k => some (ctx k)) with
        | .ok str => str
        | .error _ => ""
      let s := gatkSt o w s
      let s := genomeSt o w s
      { effects := s.effects ++
          [.writeFile "bcbio_project.yaml" workflow_to_run,
           .callPipeline "bcbio_project.yaml" o.num_cores],
        exit := sysExitCode none }

/-- A full run: `parse_arguments` (argparse errors and `parser.error` exit
the process with status 2 before any filesystem side effect), then the
body of `__main__`.  The `bcbio_nextgen.py` run subprocess's exit status
(`w.pipelineExit`) is printed and discarded by the script: it never
influences the process exit status. -/
def run (o : Options) (w : World) : RunResult :=
  match parse_arguments o with
  | .error _ => { effects := [], exit := 2 }
  | .ok o2 => runValidated o2 w

/-! ## Substring containment (for stating what a rendered text contains) -/

/-- Whether `pat` starts the list `s` (character lists). -/
def isPrefixL : List Char → List Char → Bool
  | [], _ => true
  | _ :: _, [] => false
  | a :: as, b :: bs => a == b && isPrefixL as bs

/-- Whether `pat` occurs contiguously in `s` (character lists). -/
def containsL (pat : List Char) : List Char → Bool
  | [] => isPrefixL pat []
  | b :: bs => isPrefixL pat (b :: bs) || containsL pat bs

/-- Whether the string `pat` occurs contiguously in the string `s`. -/
def containsStr (s pat : String) : Bool :=
  containsL pat.data s.data

/-- The validity rules for workflow-mode/input-group combinations as the
specification documents them (stated from the spec's words, to be compared
with `parse_arguments`): structural-variant calling needs germline or
cancer mode; germline and cancer are mutually exclusive; germline needs
sample files; cancer needs both tumor and normal files; sample files are
incompatible with tumor or normal files. -/
def claimedValidCombos (o : Options) : Prop :=
  ¬(Workflow.structural ∈ o.workflow ∧ Workflow.germline ∉ o.workflow ∧
      Workflow.cancer ∉ o.workflow) ∧
  ¬(Workflow.germline ∈ o.workflow ∧ Workflow.cancer ∈ o.workflow) ∧
  ¬(Workflow.germline ∈ o.workflow ∧ o.sample_files = none) ∧
  ¬(Workflow.cancer ∈ o.workflow ∧
      (o.tumor_sample_files = none ∨ o.normal_sample_files = none)) ∧
  ¬(o.sample_files ≠ none ∧
      (o.tumor_sample_files ≠ none ∨ o.normal_sample_files ≠ none))

instance (o : Options) : Decidable (claimedValidCombos o) := by
  unfold claimedValidCombos; infer_instance

/-- Germline template, everything after the `$output_dir` placeholder. -/
def germTail : Template := germB ++ TItem.var "sample_files" :: germC

/-- Cancer template, everything before the `$output_dir` placeholder. -/
def cancerHead : Template :=
  cancerA ++ [TItem.var "svcaller_info"] ++ cancerB ++ [TItem.var "svcaller_info"] ++ cancerC1

/-- Two options records that agree on every input the workflow templates
read except for whether structural-variant calling is requested. -/
def eqButSV (o o₂ : Options) : Prop :=
  o.sample_files = o₂.sample_files ∧
  o.tumor_sample_files = o₂.tumor_sample_files ∧
  o.normal_sample_files = o₂.normal_sample_files ∧
  o.bed_file = o₂.bed_file ∧
  o.output_dir = o₂.output_dir

instance (o o₂ : Options) : Decidable (eqButSV o o₂) := by
  unfold eqButSV; infer_instance

/-- A substitution mapping holding the always-inserted keys but no
`sample_files` (nor tumor/normal) entry: the file-list placeholder value
is missing. -/
def m0 : List (String × String) :=
  [("working_dir", "/job/work/"), ("bed_file", "regions.bed"),
   ("output_dir", "./final"), ("svcaller_info", "")]

/-! ## Concrete demonstration inputs -/

/-- A cancer-mode invocation:
`-W cancer-variant-calling -t t_1.fq -t t_2.fq -n n_1.fq -n n_2.fq
-b regions.bed -o out`. -/
def demoCancer : Options :=
  { sample_files := none
    tumor_sample_files := some ["t_1.fq", "t_2.fq"]
    normal_sample_files := some ["n_1.fq", "n_2.fq"]
    num_cores := 16
    GATK_file := none
    workflow := [Workflow.cancer]
    bed_file := "regions.bed"
    data_dir := none
    data_file := none
    output_dir := some "out" }

/-- A germline-mode invocation:
`-W germline-variant-calling -s a_1.fq -s a_2.fq -b regions.bed`. -/
def demoGermline : Options :=
  { sample_files := some ["a_1.fq", "a_2.fq"]
    tumor_sample_files := none
    normal_sample_files := none
    num_cores := 16
    GATK_file := none
    workflow := [Workflow.germline]
    bed_file := "regions.bed"
    data_dir := none
    data_file := none
    output_dir := none }

/-- Germline mode with structural-variant calling also requested. -/
def demoGermlineSV : Options :=
  { demoGermline with workflow := [Workflow.germline, Workflow.structural] }

/-- Cancer mode with structural-variant calling also requested. -/
def demoCancerSV : Options :=
  { demoCancer with workflow := [Workflow.cancer, Workflow.structural] }

/-- The cancer invocation with the reference data supplied as an archive. -/
def demoTar : Options :=
  { demoCancer with data_file := some "refs.tar.gz" }

/-- An environment with an empty, writable current working directory;
the pipeline subprocess will return exit status 1. -/
def demoWorld : World :=
  { cwd := "/job"
    fs0 := []
    nonEmpty0 := fun _ => false
    tarOk := true
    gatkDirNonEmpty := false
    cpuCount := some 8
    pipelineExit := 1 }

/-- The same environment but the `tar` extraction subprocess fails. -/
def demoWorldTarFail : World :=
  { demoWorld with tarOk := false }

/-! ## General lemmas about the embedding -/

theorem substituteP_total (t : Template) (f : String → String) :
    substituteP t (fun k => some (f k)) = .ok (substTotal t f) := by
  induction t with
  | nil => rfl
  | cons i rest ih =>
    cases i with
    | lit s => simp [substituteP, substTotal, ih, Except.map]
    | var n => simp [substituteP, substTotal, ih, Except.map]

theorem substTotal_append (t₁ t₂ : Template) (f : String → String) :
    substTotal (t₁ ++ t₂) f = substTotal t₁ f ++ substTotal t₂ f := by
  induction t₁ with
  | nil => simp [substTotal, String.empty_append]
  | cons i rest ih =>
    cases i with
    | lit s => simp [substTotal, ih, String.append_assoc]
    | var n => simp [substTotal, ih, String.append_assoc]

theorem ctxOf_working_dir (o : Options) (cwd : String) :
    ctxOf o cwd "working_dir" = cwd ++ "/work/" := rfl

theorem ctxOf_bed_file (o : Options) (cwd : String) :
    ctxOf o cwd "bed_file" = o.bed_file := rfl

theorem ctxOf_output_dir (o : Options) (cwd : String) :
    ctxOf o cwd "output_dir" = outputDirStr o := rfl

theorem ctxOf_sample_files (o : Options) (cwd : String) :
    ctxOf o cwd "sample_files" =
      (if listTruthy o.sample_files then String.intercalate "," (o.sample_files.getD []) else "") := rfl

theorem ctxOf_normal_files (o : Options) (cwd : String) :
    ctxOf o cwd "normal_sample_files" =
      (if listTruthy o.normal_sample_files then String.intercalate "," (o.normal_sample_files.getD []) else "") := rfl

theorem ctxOf_tumor_files (o : Options) (cwd : String) :
    ctxOf o cwd "tumor_sample_files" =
      (if listTruthy o.tumor_sample_files then String.intercalate "," (o.tumor_sample_files.getD []) else "") := rfl

theorem ctxOf_svcaller (o : Options) (cwd : String) :
    ctxOf o cwd "svcaller_info" =
      (if Workflow.structural ∈ o.workflow then svFrag else "") := rfl

theorem parse_ok_eq {o o2 : Options} (h : parse_arguments o = .ok o2) : o2 = o := by
  unfold parse_arguments at h
  split_ifs at h
  simp_all

theorem parse_isOk_iff (o : Options)
    (hd : ¬(o.data_dir.isSome ∧ o.data_file.isSome)) :
    isOkE (parse_arguments o) = true ↔ claimedValidCombos o := by
  unfold parse_arguments claimedValidCombos
  split_ifs with h2 h3 h4 h5 h6
  · exact iff_of_false (by simp [isOkE]) (fun hcl => hcl.1 ⟨h2.2.2, h2.1, h2.2.1⟩)
  · exact iff_of_false (by simp [isOkE]) (fun hcl => hcl.2.1 h3)
  · exact iff_of_false (by simp [isOkE]) (fun hcl => hcl.2.2.1 h4)
  · exact iff_of_false (by simp [isOkE]) (fun hcl => hcl.2.2.2.1 ⟨h5.1, h5.2.symm⟩)
  · exact iff_of_false (by simp [isOkE]) (fun hcl => hcl.2.2.2.2 ⟨h6.2, h6.1.symm⟩)
  · exact iff_of_true rfl
      ⟨fun hx => h2 ⟨hx.2.1, hx.2.2, hx.1⟩, h3, h4,
       fun hx => h5 ⟨hx.1, hx.2.symm⟩, fun hx => h6 ⟨hx.2.symm, hx.1⟩⟩

theorem parse_ok_claimed {o : Options} (h : parse_arguments o = .ok o) :
    claimedValidCombos o := by
  have hd : ¬(o.data_dir.isSome ∧ o.data_file.isSome) := by
    intro hc
    unfold parse_arguments at h
    rw [if_pos hc] at h
    cases h
  exact (parse_isOk_iff o hd).mp (by rw [h]; rfl)

theorem templateOf_of_ok {o : Options} (h : parse_arguments o = .ok o)
    (hne : o.workflow ≠ []) : ∃ t, templateOf o = some t := by
  unfold templateOf
  by_cases hc : Workflow.cancer ∈ o.workflow
  · exact ⟨cancerTemplate, by simp [hc]⟩
  · by_cases hg : Workflow.germline ∈ o.workflow
    · exact ⟨germlineTemplate, by simp [hc, hg]⟩
    · exfalso
      obtain ⟨x, hx⟩ := List.exists_mem_of_ne_nil o.workflow hne
      have hs : Workflow.structural ∈ o.workflow := by
        cases x with
        | cancer => exact absurd hx hc
        | germline => exact absurd hx hg
        | structural => exact hx
      exact (parse_ok_claimed h).1 ⟨hs, hg, hc⟩

theorem mem_gatkSt {e : Effect} (o : Options) (w : World) (s : St)
    (h : e ∈ s.effects) : e ∈ (gatkSt o w s).effects := by
  unfold gatkSt addFx
  split_ifs <;> simp [h]

theorem mem_genomeSt {e : Effect} (o : Options) (w : World) (s : St)
    (h : e ∈ s.effects) : e ∈ (genomeSt o w s).effects := by
  unfold genomeSt addFx mkdirsF
  dsimp only
  split_ifs <;> simp [h]

theorem runValidated_effects {o : Options} {w : World} {t : Template}
    (ht : templateOf o = some t) :
    (runValidated o w).effects =
      (genomeSt o w (gatkSt o w (outSt o w))).effects ++
        [.writeFile "bcbio_project.yaml" (substTotal t (ctxOf o w.cwd)),
         .callPipeline "bcbio_project.yaml" o.num_cores] ∧
    (runValidated o w).exit = 0 := by
  unfold runValidated
  rw [ht]
  simp [substituteP_total, sysExitCode]

theorem mem_mkdirIfAbsent {e : Effect} (p : String) (s : St)
    (h : e ∈ s.effects) : e ∈ (mkdirIfAbsent p s).effects := by
  unfold mkdirIfAbsent
  split_ifs <;> simp [h]

theorem mem_outSt {e : Effect} (o : Options) (w : World)
    (h : e ∈ (provisionSt o w).effects) : e ∈ (outSt o w).effects := by
  unfold outSt workSt
  exact mem_mkdirIfAbsent _ _ (mem_mkdirIfAbsent _ _ h)

theorem mem_run_of_outSt {e : Effect} {o : Options} {w : World}
    (h : parse_arguments o = .ok o) (hm : e ∈ (outSt o w).effects) :
    e ∈ (run o w).effects := by
  have hrun : run o w = runValidated o w := by simp [run, h]
  rw [hrun]
  cases htm : templateOf o with
  | none =>
      unfold runValidated
      rw [htm]
      simpa using hm
  | some t =>
      rw [(runValidated_effects (w := w) htm).1]
      exact List.mem_append_left _ (mem_genomeSt _ _ _ (mem_gatkSt _ _ _ hm))

theorem listTruthy_of_ne {fs : List String} (h : fs ≠ []) :
    listTruthy (some fs) = true := by
  cases fs with
  | nil => exact absurd rfl h
  | cons a l => rfl

theorem renderGermline_decomp (f : String → String) :
    substTotal germlineTemplate f =
      substTotal germA f ++ f "output_dir" ++ substTotal germB f ++
        f "sample_files" ++ substTotal germC f := by
  simp [germlineTemplate, substTotal_append, substTotal,
    String.append_assoc, String.append_empty]

theorem renderGermline_out_split (f : String → String) :
    substTotal germlineTemplate f =
      substTotal germA f ++ f "output_dir" ++ substTotal germTail f := by
  simp [germlineTemplate, germTail, substTotal_append, substTotal,
    String.append_assoc, String.append_empty]

theorem renderCancer_decomp (f : String → String) :
    substTotal cancerTemplate f =
      substTotal cancerA f ++ f "svcaller_info" ++ substTotal cancerB f ++
        f "svcaller_info" ++ substTotal cancerC f := by
  simp [cancerTemplate, substTotal_append, substTotal,
    String.append_assoc, String.append_empty]

theorem renderCancer_out_split (f : String → String) :
    substTotal cancerTemplate f =
      substTotal cancerHead f ++ f "output_dir" ++ substTotal cancerC2 f := by
  simp [cancerTemplate, cancerHead, cancerC, substTotal_append, substTotal,
    String.append_assoc, String.append_empty]

theorem cancerA_congr (o o₂ : Options) (cwd : String) (he : eqButSV o o₂) :
    substTotal cancerA (ctxOf o cwd) = substTotal cancerA (ctxOf o₂ cwd) := by
  obtain ⟨e1, e2, e3, e4, e5⟩ := he
  simp [cancerA, substTotal, ctxOf_bed_file, e4]

theorem cancerB_congr (o o₂ : Options) (cwd : String) (he : eqButSV o o₂) :
    substTotal cancerB (ctxOf o cwd) = substTotal cancerB (ctxOf o₂ cwd) := by
  obtain ⟨e1, e2, e3, e4, e5⟩ := he
  simp [cancerB, substTotal, ctxOf_normal_files, ctxOf_bed_file, e3, e4]

theorem cancerC_congr (o o₂ : Options) (cwd : String) (he : eqButSV o o₂) :
    substTotal cancerC (ctxOf o cwd) = substTotal cancerC (ctxOf o₂ cwd) := by
  obtain ⟨e1, e2, e3, e4, e5⟩ := he
  simp [cancerC, cancerC1, cancerC2, substTotal, substTotal_append,
    ctxOf_tumor_files, ctxOf_output_dir, ctxOf_working_dir, outputDirStr, e2, e5]

theorem germline_congr (o o₂ : Options) (cwd : String) (he : eqButSV o o₂) :
    substTotal germlineTemplate (ctxOf o cwd) =
      substTotal germlineTemplate (ctxOf o₂ cwd) := by
  obtain ⟨e1, e2, e3, e4, e5⟩ := he
  simp [germlineTemplate, germA, germB, germC, substTotal, substTotal_append,
    ctxOf_working_dir, ctxOf_output_dir, ctxOf_sample_files, outputDirStr, e1, e5]

/-! ## Claims -/

/-- C1 (code_bug evidence): a run that reaches the main pipeline
invocation — the effect trace contains the `bcbio_nextgen.py` call — exits
with status 0 even though the pipeline subprocess returned exit status 1:
`__main__` prints and discards `subprocess.call`'s return value and falls
off the end returning `None`, and `sys.exit(None)` is exit status 0, so
the child's exit status is never propagated as the claim states. -/
theorem c1_pipeline_exit_not_propagated :
    (run demoCancer demoWorld).exit = 0 ∧
    Effect.callPipeline "bcbio_project.yaml" 16 ∈ (run demoCancer demoWorld).effects ∧
    demoWorld.pipelineExit = 1 := by
  decide

/-- C3: with the reference-data flags not conflicting, `parse_arguments`
accepts exactly the documented workflow-mode/input-group combinations
(structural-variant calling only with germline or cancer mode; germline
and cancer mutually exclusive; germline requires sample files; cancer
requires tumor and normal files; sample files incompatible with
tumor/normal files), and every rejected input exits with a non-zero
status before any directory is created or any file is written. -/
theorem c3_validation_accepts_exactly_documented (o : Options) (w : World)
    (hd : ¬(o.data_dir.isSome ∧ o.data_file.isSome)) :
    (isOkE (parse_arguments o) = true ↔ claimedValidCombos o) ∧
    (isOkE (parse_arguments o) = false →
      (run o w).exit ≠ 0 ∧ (run o w).effects = []) := by
  refine ⟨parse_isOk_iff o hd, ?_⟩
  intro hfail
  cases hpa : parse_arguments o with
  | ok o2 => rw [hpa] at hfail; simp [isOkE] at hfail
  | error e => simp [run, hpa]

/-- C3 witness: structural-variant calling requested alone is rejected
with a non-zero exit and an empty effect trace. -/
theorem c3_witness :
    (run { demoGermline with workflow := [Workflow.structural] } demoWorld).exit ≠ 0 ∧
    (run { demoGermline with workflow := [Workflow.structural] } demoWorld).effects = [] :=
  (c3_validation_accepts_exactly_documented
    { demoGermline with workflow := [Workflow.structural] } demoWorld (by decide)).2 (by decide)

/-- C7: supplying both `--data_dir` and `--data_file` fails validation
with a non-zero exit before any directory is created and before any
archive is extracted (the effect trace is empty). -/
theorem c7_data_flags_mutually_exclusive (o : Options) (w : World)
    (h1 : o.data_dir.isSome) (h2 : o.data_file.isSome) :
    (run o w).exit ≠ 0 ∧ (run o w).effects = [] := by
  have he : parse_arguments o =
      .error "argument -f/--data_file: not allowed with argument -d/--data_dir" := by
    unfold parse_arguments
    rw [if_pos ⟨h1, h2⟩]
  simp [run, he]

/-- C7 witness: a concrete invocation with both reference-data flags. -/
theorem c7_witness :
    (run { demoCancer with data_dir := some "/refs", data_file := some "/refs.tar.gz" }
        demoWorld).exit ≠ 0 ∧
    (run { demoCancer with data_dir := some "/refs", data_file := some "/refs.tar.gz" }
        demoWorld).effects = [] :=
  c7_data_flags_mutually_exclusive
    { demoCancer with data_dir := some "/refs", data_file := some "/refs.tar.gz" }
    demoWorld (by decide) (by decide)

/-- C9: for every options record that passes validation (with a workflow
requested, as argparse guarantees), a workflow template is selected and
substituting it never produces a missing-key error — the `defaultdict`
supplies the empty string for every absent placeholder, so the `KeyError`
handler is unreachable — and the rendered configuration text is written
out. -/
theorem c9_substitution_never_fails (o : Options) (w : World)
    (h : parse_arguments o = .ok o) (hne : o.workflow ≠ []) :
    ∃ t, templateOf o = some t ∧
      substituteP t (fun k => some (ctxOf o w.cwd k)) =
        Except.ok (substTotal t (ctxOf o w.cwd)) ∧
      Effect.writeFile "bcbio_project.yaml" (substTotal t (ctxOf o w.cwd)) ∈
        (run o w).effects := by
  obtain ⟨t, ht⟩ := templateOf_of_ok h hne
  refine ⟨t, ht, substituteP_total t _, ?_⟩
  have hrv := runValidated_effects (w := w) ht
  have hrun : run o w = runValidated o w := by simp [run, h]
  rw [hrun, hrv.1]
  simp

/-- C9 witness: the cancer demonstration invocation renders and writes
its configuration without any missing-key error. -/
theorem c9_witness :
    ∃ t, templateOf demoCancer = some t ∧
      substituteP t (fun k => some (ctxOf demoCancer demoWorld.cwd k)) =
        Except.ok (substTotal t (ctxOf demoCancer demoWorld.cwd)) ∧
      Effect.writeFile "bcbio_project.yaml"
          (substTotal t (ctxOf demoCancer demoWorld.cwd)) ∈
        (run demoCancer demoWorld).effects :=
  c9_substitution_never_fails demoCancer demoWorld rfl (by decide)

/-- C10: when the germline workflow is selected (cancer mode absent), the
germline template is the one rendered and the rendered text is independent
of the `--bed_file` value: two invocations identical except for
`bed_file` render byte-identical configurations, because the germline
template has no `$bed_file` placeholder. -/
theorem c10_germline_render_independent_of_bed (o : Options) (cwd b1 b2 : String)
    (hg : Workflow.germline ∈ o.workflow) (hc : Workflow.cancer ∉ o.workflow) :
    templateOf o = some germlineTemplate ∧
    substTotal germlineTemplate (ctxOf { o with bed_file := b1 } cwd) =
      substTotal germlineTemplate (ctxOf { o with bed_file := b2 } cwd) := by
  constructor
  · unfold templateOf
    rw [if_neg hc, if_pos hg]
  · rfl

/-- C10 witness: the germline demonstration invocation renders the same
text for two different BED files. -/
theorem c10_witness :
    templateOf demoGermline = some germlineTemplate ∧
    substTotal germlineTemplate (ctxOf { demoGermline with bed_file := "x.bed" } "/job") =
      substTotal germlineTemplate (ctxOf { demoGermline with bed_file := "y.bed" } "/job") :=
  c10_germline_render_independent_of_bed demoGermline "/job" "x.bed" "y.bed"
    (by decide) (by decide)

/-- C4 counterexample: with the reference data supplied as an archive and
the `tar` subprocess failing, the run does not abort: it still writes the
configuration file, still invokes the pipeline, and exits with status 0,
contradicting the claim that extraction failure is fatal. -/
theorem c4_counterexample :
    (run demoTar demoWorldTarFail).exit = 0 ∧
    Effect.tarExtract "refs.tar.gz" "/job/data/" ∈ (run demoTar demoWorldTarFail).effects ∧
    writesConfig (run demoTar demoWorldTarFail) = true ∧
    Effect.callPipeline "bcbio_project.yaml" 16 ∈ (run demoTar demoWorldTarFail).effects := by
  decide

/-- C4 (amended): if extraction of the `--data_file` archive fails, the
error output is only printed to stderr and the run continues unchanged —
the configuration file is still written, the pipeline is still invoked,
and the exit status is unaffected (0). -/
theorem c4_amended_tar_failure_not_fatal (o : Options) (w : World)
    (h : parse_arguments o = .ok o) (hne : o.workflow ≠ [])
    (hdd : o.data_dir = none) (hdf : strTruthy o.data_file = true)
    (htar : w.tarOk = false) :
    Effect.tarExtract (o.data_file.getD "") (w.cwd ++ "/data/") ∈ (run o w).effects ∧
    (∃ c, Effect.writeFile "bcbio_project.yaml" c ∈ (run o w).effects) ∧
    Effect.callPipeline "bcbio_project.yaml" o.num_cores ∈ (run o w).effects ∧
    (run o w).exit = 0 := by
  obtain ⟨t, ht⟩ := templateOf_of_ok h hne
  have hrv := runValidated_effects (w := w) ht
  have hrun : run o w = runValidated o w := by simp [run, h]
  have hddf : strTruthy o.data_dir = false := by rw [hdd]; rfl
  have htm : Effect.tarExtract (o.data_file.getD "") (w.cwd ++ "/data/") ∈
      (provisionSt o w).effects := by
    unfold provisionSt
    simp [hddf, hdf, htar, addFx]
  refine ⟨?_, ⟨substTotal t (ctxOf o w.cwd), ?_⟩, ?_, ?_⟩
  · exact mem_run_of_outSt h (mem_outSt _ _ htm)
  · rw [hrun, hrv.1]
    simp
  · rw [hrun, hrv.1]
    simp
  · rw [hrun]
    exact hrv.2

/-- C4 witness: the amended behaviour at a concrete failing extraction. -/
theorem c4_amended_witness :
    Effect.tarExtract (demoTar.data_file.getD "") (demoWorldTarFail.cwd ++ "/data/") ∈
      (run demoTar demoWorldTarFail).effects ∧
    Effect.callPipeline "bcbio_project.yaml" demoTar.num_cores ∈
      (run demoTar demoWorldTarFail).effects ∧
    (run demoTar demoWorldTarFail).exit = 0 := by
  have h := c4_amended_tar_failure_not_fatal demoTar demoWorldTarFail rfl
    (by decide) rfl rfl rfl
  exact ⟨h.1, h.2.2.1, h.2.2.2⟩

/-- C8: with no `--output_dir` supplied, the substituted output directory
is the literal `./final`, that directory is created when it does not
already exist at that point of the run, and the rendered configuration's
upload `dir:` field receives `./final` in both the germline and the
cancer template. -/
theorem c8_default_output_dir (o : Options) (w : World)
    (h : parse_arguments o = .ok o) (hout : o.output_dir = none)
    (hfs : "./final" ∉ (workSt o w).fs) :
    outputDirStr o = "./final" ∧
    Effect.makedirs "./final" ∈ (run o w).effects ∧
    (substTotal germlineTemplate (ctxOf o w.cwd) =
      substTotal germA (ctxOf o w.cwd) ++ "./final" ++
        substTotal germTail (ctxOf o w.cwd)) ∧
    (substTotal cancerTemplate (ctxOf o w.cwd) =
      substTotal cancerHead (ctxOf o w.cwd) ++ "./final" ++
        substTotal cancerC2 (ctxOf o w.cwd)) := by
  have houts : outputDirStr o = "./final" := by
    unfold outputDirStr
    rw [hout]
    rfl
  have hco : ctxOf o w.cwd "output_dir" = "./final" := by
    rw [ctxOf_output_dir, houts]
  refine ⟨houts, ?_, ?_, ?_⟩
  · apply mem_run_of_outSt h
    unfold outSt
    rw [houts]
    unfold mkdirIfAbsent
    rw [if_neg (by exact hfs)]
    simp
  · rw [renderGermline_out_split, hco]
  · rw [renderCancer_out_split, hco]

/-- C8 witness: the germline demonstration invocation (no `--output_dir`)
creates `./final` and renders `./final` into the upload field. -/
theorem c8_witness :
    outputDirStr demoGermline = "./final" ∧
    Effect.makedirs "./final" ∈ (run demoGermline demoWorld).effects ∧
    (substTotal germlineTemplate (ctxOf demoGermline demoWorld.cwd) =
      substTotal germA (ctxOf demoGermline demoWorld.cwd) ++ "./final" ++
        substTotal germTail (ctxOf demoGermline demoWorld.cwd)) ∧
    (substTotal cancerTemplate (ctxOf demoGermline demoWorld.cwd) =
      substTotal cancerHead (ctxOf demoGermline demoWorld.cwd) ++ "./final" ++
        substTotal cancerC2 (ctxOf demoGermline demoWorld.cwd)) :=
  c8_default_output_dir demoGermline demoWorld rfl rfl (by decide)

/-- C6: every file group given on the command line renders into its
template's file-list field as the comma-separated join of exactly those
paths, in order: sample files into the germline `files: [ ... ]` field
(between the literal chunks `g2`, ending in `files: [ `, and `g3`,
starting with ` ]`), normal and tumor files into the two cancer
`files: [...]` fields (between `c2`/`c3` and `c5`/`c6`). -/
theorem c6_file_lists_comma_joined (o : Options) (cwd : String) :
    (∀ fs, o.sample_files = some fs → fs ≠ [] →
      substTotal germlineTemplate (ctxOf o cwd) =
        substTotal germA (ctxOf o cwd) ++ outputDirStr o ++ g2 ++
          String.intercalate "," fs ++ g3) ∧
    (∀ fs, o.normal_sample_files = some fs → fs ≠ [] →
      substTotal cancerTemplate (ctxOf o cwd) =
        substTotal cancerA (ctxOf o cwd) ++ ctxOf o cwd "svcaller_info" ++ c2 ++
          String.intercalate "," fs ++ c3 ++ o.bed_file ++ c4 ++
          ctxOf o cwd "svcaller_info" ++ substTotal cancerC (ctxOf o cwd)) ∧
    (∀ fs, o.tumor_sample_files = some fs → fs ≠ [] →
      substTotal cancerTemplate (ctxOf o cwd) =
        substTotal cancerA (ctxOf o cwd) ++ ctxOf o cwd "svcaller_info" ++
          substTotal cancerB (ctxOf o cwd) ++ ctxOf o cwd "svcaller_info" ++
          c5 ++ String.intercalate "," fs ++ c6 ++ outputDirStr o ++
          substTotal cancerC2 (ctxOf o cwd)) := by
  refine ⟨?_, ?_, ?_⟩
  · intro fs hsf hne
    have h1 : ctxOf o cwd "sample_files" = String.intercalate "," fs := by
      rw [ctxOf_sample_files, hsf, listTruthy_of_ne hne]
      simp
    rw [renderGermline_decomp]
    simp [germB, germC, substTotal, ctxOf_output_dir, h1,
      String.append_assoc, String.append_empty]
  · intro fs hnf hne
    have h1 : ctxOf o cwd "normal_sample_files" = String.intercalate "," fs := by
      rw [ctxOf_normal_files, hnf, listTruthy_of_ne hne]
      simp
    rw [renderCancer_decomp]
    simp [cancerB, substTotal, h1, ctxOf_bed_file,
      String.append_assoc, String.append_empty]
  · intro fs htf hne
    have h1 : ctxOf o cwd "tumor_sample_files" = String.intercalate "," fs := by
      rw [ctxOf_tumor_files, htf, listTruthy_of_ne hne]
      simp
    rw [renderCancer_decomp]
    simp [cancerC, cancerC1, substTotal_append, substTotal, h1, ctxOf_output_dir,
      String.append_assoc, String.append_empty]

set_option maxRecDepth 100000 in
/-- C6 witness: the germline demonstration invocation with sample files
`a_1.fq a_2.fq` renders the literal text `a_1.fq,a_2.fq` inside the
`files: [ ... ]` field. -/
theorem c6_witness :
    substTotal germlineTemplate (ctxOf demoGermline "/job") =
      substTotal germA (ctxOf demoGermline "/job") ++ outputDirStr demoGermline ++ g2 ++
        String.intercalate "," ["a_1.fq", "a_2.fq"] ++ g3 ∧
    containsStr (substTotal germlineTemplate (ctxOf demoGermline "/job"))
      "- files: [ a_1.fq,a_2.fq ]" = true := by
  constructor
  · exact (c6_file_lists_comma_joined demoGermline "/job").1 ["a_1.fq", "a_2.fq"]
      rfl (by decide)
  · decide

set_option maxRecDepth 100000 in
/-- C5 counterexample: the claim fails as stated — germline together with
structural-variant calling is a valid combination, yet its rendered
configuration does not contain the tool-list fragment (the germline
template has no `$svcaller_info` placeholder); and the valid cancer
combination without structural-variant calling still contains the
fragment text (inside comment lines of the template). -/
theorem c5_counterexample :
    isOkE (parse_arguments demoGermlineSV) = true ∧
    containsStr (substTotal germlineTemplate (ctxOf demoGermlineSV "/job")) svFrag = false ∧
    isOkE (parse_arguments demoCancer) = true ∧
    containsStr (substTotal cancerTemplate (ctxOf demoCancer "/job")) svFrag = true := by
  decide

/-- C5 (amended): for cancer-based valid combinations, requesting
structural-variant calling substitutes `svcaller: [cnvkit, lumpy, delly]`
at the two `$svcaller_info` placeholders and not requesting it
substitutes the empty string there, the surrounding document being
byte-identical (the same three surrounding parts in both cases);
for germline-based combinations the rendered configuration is unchanged
by the structural-variant request, since the germline template has no
such placeholder. -/
theorem c5_amended_svcaller_fragment (o o₂ : Options) (cwd : String)
    (hc : Workflow.cancer ∈ o.workflow) (hsv : Workflow.structural ∈ o.workflow)
    (hc2 : Workflow.cancer ∈ o₂.workflow) (hsv2 : Workflow.structural ∉ o₂.workflow)
    (he : eqButSV o o₂) :
    templateOf o = some cancerTemplate ∧
    templateOf o₂ = some cancerTemplate ∧
    substTotal cancerTemplate (ctxOf o cwd) =
      substTotal cancerA (ctxOf o₂ cwd) ++ svFrag ++ substTotal cancerB (ctxOf o₂ cwd) ++
        svFrag ++ substTotal cancerC (ctxOf o₂ cwd) ∧
    substTotal cancerTemplate (ctxOf o₂ cwd) =
      substTotal cancerA (ctxOf o₂ cwd) ++ substTotal cancerB (ctxOf o₂ cwd) ++
        substTotal cancerC (ctxOf o₂ cwd) ∧
    (∀ g g₂ : Options, Workflow.germline ∈ g.workflow →
      Workflow.structural ∈ g.workflow → Workflow.structural ∉ g₂.workflow →
      eqButSV g g₂ →
      substTotal germlineTemplate (ctxOf g cwd) =
        substTotal germlineTemplate (ctxOf g₂ cwd)) := by
  refine ⟨?_, ?_, ?_, ?_, ?_⟩
  · unfold templateOf
    rw [if_pos hc]
  · unfold templateOf
    rw [if_pos hc2]
  · rw [renderCancer_decomp, ctxOf_svcaller, if_pos hsv,
      cancerA_congr o o₂ cwd he, cancerB_congr o o₂ cwd he, cancerC_congr o o₂ cwd he]
  · rw [renderCancer_decomp, ctxOf_svcaller, if_neg hsv2]
    simp [String.append_empty]
  · intro g g₂ _hg _hs _hs2 heg
    exact germline_congr g g₂ cwd heg

/-- C5 witness: the cancer demonstration invocation with and without
structural-variant calling. -/
theorem c5_amended_witness :
    substTotal cancerTemplate (ctxOf demoCancerSV "/job") =
      substTotal cancerA (ctxOf demoCancer "/job") ++ svFrag ++
        substTotal cancerB (ctxOf demoCancer "/job") ++ svFrag ++
        substTotal cancerC (ctxOf demoCancer "/job") ∧
    substTotal cancerTemplate (ctxOf demoCancer "/job") =
      substTotal cancerA (ctxOf demoCancer "/job") ++
        substTotal cancerB (ctxOf demoCancer "/job") ++
        substTotal cancerC (ctxOf demoCancer "/job") := by
  have h := c5_amended_svcaller_fragment demoCancerSV demoCancer "/job"
    (by decide) (by decide) (by decide) (by decide) (by decide)
  exact ⟨h.2.2.1, h.2.2.2.1⟩

set_option maxRecDepth 100000 in
/-- C2 counterexample: rendering the germline template with the
`sample_files` substitution value missing raises no error at all — the
`defaultdict` yields the empty string, the substitution succeeds, and the
configuration text is produced with an empty file list — contradicting
the claim that a missing input-file key is reported as a hard error with
an abort. -/
theorem c2_counterexample :
    isOkE (substituteP germlineTemplate (fun k => some (dget m0 k))) = true ∧
    dget m0 "sample_files" = "" ∧
    containsStr (substTotal germlineTemplate (dget m0)) "- files: [  ]" = true := by
  decide

/-- C2 (amended): no missing placeholder value is a hard error: the
substitution mapping is a `defaultdict(str)`, so every absent placeholder
— the sample/tumor/normal file lists included — renders as the empty
string and template substitution always succeeds, for both workflow
templates. -/
theorem c2_amended_missing_keys_render_empty (m : List (String × String)) :
    substituteP germlineTemplate (fun k => some (dget m k)) =
      Except.ok (substTotal germlineTemplate (dget m)) ∧
    substituteP cancerTemplate (fun k => some (dget m k)) =
      Except.ok (substTotal cancerTemplate (dget m)) ∧
    (∀ k, m.lookup k = none → dget m k = "") := by
  refine ⟨substituteP_total _ _, substituteP_total _ _, ?_⟩
  intro k hk
  simp [dget, hk]

/-- C2 witness: the mapping with no `sample_files` entry substitutes
successfully and yields the empty string for the missing key. -/
theorem c2_witness :
    substituteP germlineTemplate (fun k => some (dget m0 k)) =
      Except.ok (substTotal germlineTemplate (dget m0)) ∧
    dget m0 "sample_files" = "" := by
  have h := c2_amended_missing_keys_render_empty m0
  exact ⟨h.1, h.2.2 "sample_files" (by decide)⟩

end UCSCbcbioTool
